import Mathlib

/-!
Verification development for the cc-buddy environment orchestrator.

The Go sources are shallowly embedded: pure functions become Lean functions;
stateful code threads an explicit store; every external-process outcome
(git, container runtime, filesystem, disk writes) is supplied by an oracle
value, and the sequence of adapter invocations a run issues is returned as an
explicit call trace.  Machine integers do not occur in the modelled code
paths; strings are Lean strings.
-/

namespace CcBuddy

/-- Go-style fallible result: `err e` models a non-nil error, `ok v` a
successful return value. -/
inductive Res (ε α : Type) where
  | err (e : ε)
  | ok (v : α)
  deriving Repr, DecidableEq

/-- True when the result is an error (a Go non-nil error return). -/
def Res.isErr {ε α : Type} : Res ε α → Bool
  | .err _ => true
  | .ok _ => false

/-- True when the result is a success. -/
def Res.isOk {ε α : Type} : Res ε α → Bool
  | .err _ => false
  | .ok _ => true

/-- Environment record (internal/config: `Environment`).  The `created`
timestamp is modelled as a natural number. -/
structure Environment where
  name : String
  branch : String
  worktreePath : String
  containerID : String
  containerName : String
  volumeName : String
  created : Nat
  status : String
  deriving Repr, DecidableEq

/-- State (internal/config: `State`): the ordered collection of environments
persisted as one JSON document. -/
structure State where
  environments : List Environment
  deriving Repr, DecidableEq

/-- The fields of Config (internal/config: `Config`) that CreateEnvironment
reads for defaults. -/
structure Config where
  worktreeDir : String
  containerfile : String
  deriving Repr, DecidableEq

/-- The config manager's environment state as seen by the orchestrator:
`mem` is the in-memory `m.state`, `disk` the persisted JSON document.
`SaveState` copies `mem` to `disk`; a failing save is modelled as
all-or-nothing (the document on disk is left as it was). -/
structure StateStore where
  mem : State
  disk : State
  deriving Repr, DecidableEq

/-- GetEnvironment (config.go): first entry whose name matches, if any. -/
def GetEnvironment (s : State) (name : String) : Option Environment :=
  s.environments.find? (fun e => e.name == name)

/-- AddEnvironment (config.go): reject a duplicate name, otherwise append the
record to the in-memory list and save; `saveOk` is the outcome of the
`SaveState` disk write.  On a failed save the in-memory list keeps the
appended record (as in the Go code) while the disk document is unchanged. -/
def AddEnvironment (st : StateStore) (env : Environment) (saveOk : Bool) :
    Res String Unit × StateStore :=
  if st.mem.environments.any (fun e => e.name == env.name) then
    (.err ("environment with name " ++ env.name ++ " already exists"), st)
  else
    let mem2 : State := ⟨st.mem.environments ++ [env]⟩
    if saveOk then (.ok (), ⟨mem2, mem2⟩)
    else (.err "failed to write state file", ⟨mem2, st.disk⟩)

/-- Removal of the first record with the given name, as the Go loop in
RemoveEnvironment does; `none` when no record matches. -/
def removeFirstEnv : List Environment → String → Option (List Environment)
  | [], _ => none
  | e :: rest, n =>
    if e.name == n then some rest
    else (removeFirstEnv rest n).map (fun l => e :: l)

/-- RemoveEnvironment (config.go): drop the first matching record and save;
not-found is an error.  On a failed save the in-memory list is already
shortened while the disk document is unchanged. -/
def RemoveEnvironment (st : StateStore) (name : String) (saveOk : Bool) :
    Res String Unit × StateStore :=
  match removeFirstEnv st.mem.environments name with
  | none => (.err ("environment " ++ name ++ " not found"), st)
  | some l =>
    let mem2 : State := ⟨l⟩
    if saveOk then (.ok (), ⟨mem2, mem2⟩)
    else (.err "failed to write state file", ⟨mem2, st.disk⟩)

/-- In-place update of the first record with the given name, as the Go loop in
UpdateEnvironment does; `none` when no record matches. -/
def updateFirstEnv : List Environment → String → (Environment → Environment) →
    Option (List Environment)
  | [], _, _ => none
  | e :: rest, n, f =>
    if e.name == n then some (f e :: rest)
    else (updateFirstEnv rest n f).map (fun l => e :: l)

/-- UpdateEnvironment (config.go): apply the updater to the first matching
record and save; not-found is an error. -/
def UpdateEnvironment (st : StateStore) (name : String)
    (f : Environment → Environment) (saveOk : Bool) :
    Res String Unit × StateStore :=
  match updateFirstEnv st.mem.environments name f with
  | none => (.err ("environment " ++ name ++ " not found"), st)
  | some l =>
    let mem2 : State := ⟨l⟩
    if saveOk then (.ok (), ⟨mem2, mem2⟩)
    else (.err "failed to write state file", ⟨mem2, st.disk⟩)

/-- The State invariant of the spec: environment names are unique. -/
def namesUnique (s : State) : Prop :=
  (s.environments.map (fun e => e.name)).Nodup

instance (s : State) : Decidable (namesUnique s) := by
  unfold namesUnique; infer_instance

/-- Character-level replacement of forward slashes by hyphens, the effect of
`strings.ReplaceAll(branchName, "/", "-")` in git.go (with a one-character
pattern, ReplaceAll is exactly per-character replacement). -/
def replaceSlashes : List Char → List Char
  | [] => []
  | c :: rest => (if c = '/' then '-' else c) :: replaceSlashes rest

/-- GenerateEnvironmentName (git.go): `{repo}-{sanitized branch}`.  GetRepoName
consults git remotes, so the repository name enters as a value. -/
def GenerateEnvironmentName (repoName branchName : String) : String :=
  repoName ++ "-" ++ ⟨replaceSlashes branchName.data⟩

/-- A minimal environment record used in concrete checks. -/
def mkEnv (n : String) : Environment :=
  { name := n, branch := "", worktreePath := "", containerID := "",
    containerName := "", volumeName := "", created := 0, status := "" }

/-- One adapter / filesystem / state-store invocation issued by the
orchestrator, as recorded in a run's call trace. -/
inductive Call where
  | fetchRemote (remote : String)
  | remoteBranchExists (remote branch : String)
  | branchExists (branch : String)
  | createBranch (branch : String)
  | createWorktree (path branch remoteRef : String)
  | statContainerfile (path : String)
  | build (contextDir dockerfile tag : String)
  | createVolume (name : String)
  | runContainer (name image : String)
  | stopContainer (id : String)
  | removeContainer (id : String)
  | removeVolume (name : String)
  | removeImage (tag : String)
  | removeWorktree (path : String)
  | deleteBranch (branch : String)
  | removeStateRecord (name : String)
  deriving Repr, DecidableEq

/-- Compensation-kind calls: the teardown half of the call vocabulary. -/
def Call.isCompensation : Call → Bool
  | .stopContainer _ => true
  | .removeContainer _ => true
  | .removeVolume _ => true
  | .removeImage _ => true
  | .removeWorktree _ => true
  | .deleteBranch _ => true
  | .removeStateRecord _ => true
  | _ => false

/-- CreateEnvironmentOptions (manager.go 64-73). -/
structure CreateEnvironmentOptions where
  branchName : String
  isRemoteBranch : Bool
  remoteName : String
  worktreeDir : String
  containerfile : String
  exposeAllPorts : Bool
  startupCommand : List String
  deriving Repr, DecidableEq

/-- Outcomes of the external calls CreateEnvironment makes, one field per call
site (each call site executes at most once per run).  `runRes` carries the
container id printed by a successful detached run; `saveStateOk` is the
outcome of the state file write inside AddEnvironment. -/
structure Oracle where
  fetchRemoteOk : Bool
  remoteBranchExistsRes : Res Unit Bool
  branchExistsRes : Res Unit Bool
  createBranchOk : Bool
  createWorktreeOk : Bool
  containerfileExists : Bool
  buildOk : Bool
  createVolumeOk : Bool
  runRes : Res Unit String
  saveStateOk : Bool
  deriving Repr, DecidableEq

/-- The cleanup flag record of CreateEnvironment (manager.go 100-110). -/
structure CleanupState where
  environmentInState : Bool
  branchCreated : Bool
  worktreeCreated : Bool
  imageBuilt : Bool
  volumeCreated : Bool
  containerStarted : Bool
  imageName : String
  deriving Repr, DecidableEq

/-- All flags clear: the cleanup record as initialised. -/
def CleanupState.init : CleanupState :=
  ⟨false, false, false, false, false, false, ""⟩

/-- The deferred cleanup of CreateEnvironment (manager.go 124-169): runs only
when the call returns an error, issues one compensation per flag set, in the
defer's order, treats compensation failures as warnings (they never change the
result), and touches the store only through the state-record removal. -/
def cleanupRun (o : Oracle) (cs : CleanupState) (env : Environment)
    (st : StateStore) : List Call × StateStore :=
  ((if cs.containerStarted && !(env.containerID == "") then
      [Call.stopContainer env.containerID, Call.removeContainer env.containerID]
    else []) ++
   (if cs.volumeCreated then [Call.removeVolume env.volumeName] else []) ++
   (if cs.imageBuilt && !(cs.imageName == "") then
      [Call.removeImage cs.imageName] else []) ++
   (if cs.worktreeCreated then [Call.removeWorktree env.worktreePath] else []) ++
   (if cs.branchCreated then [Call.deleteBranch env.branch] else []) ++
   (if cs.environmentInState then [Call.removeStateRecord env.name] else []),
   if cs.environmentInState then (RemoveEnvironment st env.name o.saveStateOk).2
   else st)

/-- The value CreateEnvironment's run produces: the Go return value, the call
trace, the final cleanup flags and the final store. -/
structure CreateResult where
  result : Res String Environment
  trace : List Call
  flags : CleanupState
  store : StateStore
  deriving Repr, DecidableEq

/-- An early error return of CreateEnvironment: the deferred cleanup fires with
the flags set so far, and the original error is returned unmodified. -/
def createFail (o : Oracle) (cs : CleanupState) (env : Environment)
    (fwd : List Call) (msg : String) (st : StateStore) : CreateResult :=
  ⟨.err msg, fwd ++ (cleanupRun o cs env st).1, cs, (cleanupRun o cs env st).2⟩

/-- The derived environment name of a creation call. -/
def envNameOf (repoName : String) (opts : CreateEnvironmentOptions) : String :=
  GenerateEnvironmentName repoName opts.branchName

/-- The worktree root: the option override, or the configured default. -/
def worktreeDirOf (opts : CreateEnvironmentOptions) (cfg : Config) : String :=
  if opts.worktreeDir == "" then cfg.worktreeDir else opts.worktreeDir

/-- The containerfile: the option override, or the configured default. -/
def containerfileOf (opts : CreateEnvironmentOptions) (cfg : Config) : String :=
  if opts.containerfile == "" then cfg.containerfile else opts.containerfile

/-- The image tag `cc-buddy-{envName}:latest` (manager.go 219). -/
def imageTagOf (envName : String) : String :=
  "cc-buddy-" ++ envName ++ ":latest"

/-- The remote branch reference passed to worktree creation. -/
def remoteRefOf (opts : CreateEnvironmentOptions) : String :=
  if opts.isRemoteBranch then opts.remoteName ++ "/" ++ opts.branchName else ""

/-- The environment record as first assembled (manager.go 113-121). -/
def env0Of (opts : CreateEnvironmentOptions) (repoName : String) (cfg : Config)
    (now : Nat) : Environment :=
  { name := envNameOf repoName opts, branch := opts.branchName,
    worktreePath := worktreeDirOf opts cfg ++ "/" ++ envNameOf repoName opts,
    containerID := "", containerName := "cc-buddy-" ++ envNameOf repoName opts,
    volumeName := "cc-buddy-" ++ envNameOf repoName opts ++ "-data",
    created := now, status := "creating" }

/-- Step 7 of CreateEnvironment (manager.go 295-305): persist the record. -/
def createStep7 (o : Oracle) (env1 : Environment) (fwd : List Call)
    (cs : CleanupState) (st : StateStore) : CreateResult :=
  match (AddEnvironment st env1 o.saveStateOk).1 with
  | .err _ =>
    createFail o cs env1 fwd "failed to add environment to state"
      (AddEnvironment st env1 o.saveStateOk).2
  | .ok _ =>
    ⟨.ok env1, fwd, { cs with environmentInState := true },
      (AddEnvironment st env1 o.saveStateOk).2⟩

/-- Step 6 of CreateEnvironment (manager.go 246-293): start the instance. -/
def createStep6 (o : Oracle) (env0 : Environment) (imageTag : String)
    (fwd : List Call) (cs : CleanupState) (st : StateStore) : CreateResult :=
  match o.runRes with
  | .err _ =>
    createFail o cs env0 (fwd ++ [Call.runContainer env0.containerName imageTag])
      "failed to start container" st
  | .ok containerID =>
    createStep7 o { env0 with containerID := containerID, status := "running" }
      (fwd ++ [Call.runContainer env0.containerName imageTag])
      { cs with containerStarted := true } st

/-- Step 5 of CreateEnvironment (manager.go 240-244): create the volume. -/
def createStep5 (o : Oracle) (env0 : Environment) (imageTag : String)
    (fwd : List Call) (cs : CleanupState) (st : StateStore) : CreateResult :=
  if !o.createVolumeOk then
    createFail o cs env0 (fwd ++ [Call.createVolume env0.volumeName])
      "failed to create volume" st
  else
    createStep6 o env0 imageTag (fwd ++ [Call.createVolume env0.volumeName])
      { cs with volumeCreated := true } st

/-- Step 4 of CreateEnvironment (manager.go 218-238): build the image. -/
def createStep4 (o : Oracle) (env0 : Environment) (containerfile : String)
    (fwd : List Call) (cs : CleanupState) (st : StateStore) : CreateResult :=
  if !o.buildOk then
    createFail o cs env0
      (fwd ++ [Call.build env0.worktreePath containerfile (imageTagOf env0.name)])
      "failed to build container image" st
  else
    createStep5 o env0 (imageTagOf env0.name)
      (fwd ++ [Call.build env0.worktreePath containerfile (imageTagOf env0.name)])
      { cs with imageBuilt := true, imageName := imageTagOf env0.name } st

/-- Step 3 of CreateEnvironment (manager.go 212-216): check the containerfile. -/
def createStep3 (o : Oracle) (env0 : Environment) (containerfile : String)
    (fwd : List Call) (cs : CleanupState) (st : StateStore) : CreateResult :=
  if !o.containerfileExists then
    createFail o cs env0
      (fwd ++ [Call.statContainerfile (env0.worktreePath ++ "/" ++ containerfile)])
      ("containerfile not found: " ++ env0.worktreePath ++ "/" ++ containerfile) st
  else
    createStep4 o env0 containerfile
      (fwd ++ [Call.statContainerfile (env0.worktreePath ++ "/" ++ containerfile)])
      cs st

/-- Step 2 of CreateEnvironment (manager.go 201-210): create the worktree. -/
def createStep2 (o : Oracle) (opts : CreateEnvironmentOptions)
    (env0 : Environment) (containerfile : String) (fwd : List Call)
    (cs : CleanupState) (st : StateStore) : CreateResult :=
  if !o.createWorktreeOk then
    createFail o cs env0
      (fwd ++ [Call.createWorktree env0.worktreePath opts.branchName (remoteRefOf opts)])
      "failed to create worktree" st
  else
    createStep3 o env0 containerfile
      (fwd ++ [Call.createWorktree env0.worktreePath opts.branchName (remoteRefOf opts)])
      { cs with worktreeCreated := true } st

/-- CreateEnvironment (manager.go 76-306): duplicate-name validation, step 1
(branch resolution), then steps 2-7.  Adapter, filesystem and disk-write
outcomes come from the oracle; the repository name (GetRepoName consults git)
and the clock are parameters. -/
def CreateEnvironment (o : Oracle) (opts : CreateEnvironmentOptions)
    (repoName : String) (cfg : Config) (now : Nat) (st : StateStore) :
    CreateResult :=
  if (GetEnvironment st.mem (envNameOf repoName opts)).isSome then
    ⟨.err ("environment " ++ envNameOf repoName opts ++ " already exists"),
      [], CleanupState.init, st⟩
  else if opts.isRemoteBranch then
    if !o.fetchRemoteOk then
      createFail o CleanupState.init (env0Of opts repoName cfg now)
        [Call.fetchRemote opts.remoteName]
        ("failed to fetch remote " ++ opts.remoteName) st
    else
      match o.remoteBranchExistsRes with
      | .err _ =>
        createFail o CleanupState.init (env0Of opts repoName cfg now)
          [Call.fetchRemote opts.remoteName,
            Call.remoteBranchExists opts.remoteName opts.branchName]
          "failed to check remote branch" st
      | .ok false =>
        createFail o CleanupState.init (env0Of opts repoName cfg now)
          [Call.fetchRemote opts.remoteName,
            Call.remoteBranchExists opts.remoteName opts.branchName]
          ("remote branch " ++ opts.remoteName ++ "/" ++ opts.branchName ++
            " does not exist") st
      | .ok true =>
        createStep2 o opts (env0Of opts repoName cfg now)
          (containerfileOf opts cfg)
          [Call.fetchRemote opts.remoteName,
            Call.remoteBranchExists opts.remoteName opts.branchName]
          CleanupState.init st
  else
    match o.branchExistsRes with
    | .err _ =>
      createFail o CleanupState.init (env0Of opts repoName cfg now)
        [Call.branchExists opts.branchName] "failed to check local branch" st
    | .ok true =>
      createStep2 o opts (env0Of opts repoName cfg now) (containerfileOf opts cfg)
        [Call.branchExists opts.branchName] CleanupState.init st
    | .ok false =>
      if !o.createBranchOk then
        createFail o CleanupState.init (env0Of opts repoName cfg now)
          [Call.branchExists opts.branchName, Call.createBranch opts.branchName]
          "failed to create branch" st
      else
        createStep2 o opts (env0Of opts repoName cfg now) (containerfileOf opts cfg)
          [Call.branchExists opts.branchName, Call.createBranch opts.branchName]
          { CleanupState.init with branchCreated := true } st

/-- Branch-resolution success (spec §4.1 step 1) as a function of the oracle:
written from the spec's step list for comparison with the embedded code. -/
def branchStepOk (o : Oracle) (opts : CreateEnvironmentOptions) : Bool :=
  if opts.isRemoteBranch then
    o.fetchRemoteOk && (o.remoteBranchExistsRes == .ok true)
  else
    (o.branchExistsRes == .ok true) ||
      ((o.branchExistsRes == .ok false) && o.createBranchOk)

/-- Whether step 1 created a new local branch on this call. -/
def branchCreatedByCall (o : Oracle) (opts : CreateEnvironmentOptions) : Bool :=
  !opts.isRemoteBranch && (o.branchExistsRes == .ok false) && o.createBranchOk

/-- The creation-path validation (duplicate-name check) passes. -/
def validationPassed (st : StateStore) (envName : String) : Bool :=
  !(GetEnvironment st.mem envName).isSome

/-- Step 1 (branch) completed. -/
def step1Completed (o : Oracle) (opts : CreateEnvironmentOptions)
    (st : StateStore) (envName : String) : Bool :=
  validationPassed st envName && branchStepOk o opts

/-- Step 2 (worktree) completed. -/
def step2Completed (o : Oracle) (opts : CreateEnvironmentOptions)
    (st : StateStore) (envName : String) : Bool :=
  step1Completed o opts st envName && o.createWorktreeOk

/-- Step 3 (containerfile present) completed. -/
def step3Completed (o : Oracle) (opts : CreateEnvironmentOptions)
    (st : StateStore) (envName : String) : Bool :=
  step2Completed o opts st envName && o.containerfileExists

/-- Step 4 (image build) completed. -/
def step4Completed (o : Oracle) (opts : CreateEnvironmentOptions)
    (st : StateStore) (envName : String) : Bool :=
  step3Completed o opts st envName && o.buildOk

/-- Step 5 (volume) completed. -/
def step5Completed (o : Oracle) (opts : CreateEnvironmentOptions)
    (st : StateStore) (envName : String) : Bool :=
  step4Completed o opts st envName && o.createVolumeOk

/-- Step 6 (instance started) completed. -/
def step6Completed (o : Oracle) (opts : CreateEnvironmentOptions)
    (st : StateStore) (envName : String) : Bool :=
  step5Completed o opts st envName && o.runRes.isOk

/-- Step 7 (record persisted) completed. -/
def step7Completed (o : Oracle) (opts : CreateEnvironmentOptions)
    (st : StateStore) (envName : String) : Bool :=
  step6Completed o opts st envName && o.saveStateOk

/-- The container id a successful run printed, or "" for a failed run. -/
def cidOf (o : Oracle) : String :=
  match o.runRes with
  | .ok v => v
  | .err _ => ""

/-- Modelled from the spec: the compensation sequence the claim requires for a
failed creation — one compensating call per completed step, in strict reverse
order of completion (instance stop+remove, volume, image, worktree, branch
only if created by this call, state record). -/
def specCompensation (o : Oracle) (opts : CreateEnvironmentOptions)
    (repoName : String) (cfg : Config) (st : StateStore) : List Call :=
  (if step6Completed o opts st (envNameOf repoName opts) then
    [Call.stopContainer (cidOf o), Call.removeContainer (cidOf o)] else []) ++
  (if step5Completed o opts st (envNameOf repoName opts) then
    [Call.removeVolume ("cc-buddy-" ++ envNameOf repoName opts ++ "-data")] else []) ++
  (if step4Completed o opts st (envNameOf repoName opts) then
    [Call.removeImage (imageTagOf (envNameOf repoName opts))] else []) ++
  (if step2Completed o opts st (envNameOf repoName opts) then
    [Call.removeWorktree (worktreeDirOf opts cfg ++ "/" ++ envNameOf repoName opts)]
  else []) ++
  (if validationPassed st (envNameOf repoName opts) && branchCreatedByCall o opts then
    [Call.deleteBranch opts.branchName] else []) ++
  (if step7Completed o opts st (envNameOf repoName opts) then
    [Call.removeStateRecord (envNameOf repoName opts)] else [])

/-- Modelled from the spec: the forward (acquisition) calls of a creation run
— the validation issues none, step 1 issues the branch-resolution calls, and
each later step's call is issued exactly when the step before it completed. -/
def specForward (o : Oracle) (opts : CreateEnvironmentOptions)
    (repoName : String) (cfg : Config) (st : StateStore) : List Call :=
  if !(validationPassed st (envNameOf repoName opts)) then []
  else
    (if opts.isRemoteBranch then
      Call.fetchRemote opts.remoteName ::
        (if o.fetchRemoteOk then
          [Call.remoteBranchExists opts.remoteName opts.branchName] else [])
    else
      Call.branchExists opts.branchName ::
        (if o.branchExistsRes == .ok false then
          [Call.createBranch opts.branchName] else [])) ++
    (if step1Completed o opts st (envNameOf repoName opts) then
      [Call.createWorktree (worktreeDirOf opts cfg ++ "/" ++ envNameOf repoName opts)
        opts.branchName (remoteRefOf opts)] else []) ++
    (if step2Completed o opts st (envNameOf repoName opts) then
      [Call.statContainerfile (worktreeDirOf opts cfg ++ "/" ++ envNameOf repoName opts
        ++ "/" ++ containerfileOf opts cfg)] else []) ++
    (if step3Completed o opts st (envNameOf repoName opts) then
      [Call.build (worktreeDirOf opts cfg ++ "/" ++ envNameOf repoName opts)
        (containerfileOf opts cfg) (imageTagOf (envNameOf repoName opts))] else []) ++
    (if step4Completed o opts st (envNameOf repoName opts) then
      [Call.createVolume ("cc-buddy-" ++ envNameOf repoName opts ++ "-data")] else []) ++
    (if step5Completed o opts st (envNameOf repoName opts) then
      [Call.runContainer ("cc-buddy-" ++ envNameOf repoName opts)
        (imageTagOf (envNameOf repoName opts))] else [])

/-- The cleanup flags after step 1: only branchCreated may be set. -/
def flags1 (o : Oracle) (opts : CreateEnvironmentOptions) : CleanupState :=
  ⟨false, branchCreatedByCall o opts, false, false, false, false, ""⟩

/-- The cleanup flags after step 2: the worktree exists. -/
def flags2 (o : Oracle) (opts : CreateEnvironmentOptions) : CleanupState :=
  ⟨false, branchCreatedByCall o opts, true, false, false, false, ""⟩

/-- The cleanup flags after step 4: the image is built. -/
def flags4 (o : Oracle) (opts : CreateEnvironmentOptions) (n : String) :
    CleanupState :=
  ⟨false, branchCreatedByCall o opts, true, true, false, false, imageTagOf n⟩

/-- The cleanup flags after step 5: the volume exists. -/
def flags5 (o : Oracle) (opts : CreateEnvironmentOptions) (n : String) :
    CleanupState :=
  ⟨false, branchCreatedByCall o opts, true, true, true, false, imageTagOf n⟩

/-- The cleanup flags after step 6: the instance is started. -/
def flags6 (o : Oracle) (opts : CreateEnvironmentOptions) (n : String) :
    CleanupState :=
  ⟨false, branchCreatedByCall o opts, true, true, true, true, imageTagOf n⟩

/-- Concrete all-success oracle: no prior local branch, so step 1 creates
one; a successful detached run prints container id "cid-1". -/
def oracleAllOk : Oracle :=
  { fetchRemoteOk := true, remoteBranchExistsRes := .ok true,
    branchExistsRes := .ok false, createBranchOk := true,
    createWorktreeOk := true, containerfileExists := true, buildOk := true,
    createVolumeOk := true, runRes := .ok "cid-1", saveStateOk := true }

/-- Scenario A options: Create("feature-auth") from a local branch. -/
def optsFeatureAuth : CreateEnvironmentOptions :=
  { branchName := "feature-auth", isRemoteBranch := false, remoteName := "",
    worktreeDir := "", containerfile := "", exposeAllPorts := false,
    startupCommand := [] }

/-- The default config (config.go DefaultConfig). -/
def cfgDefault : Config :=
  { worktreeDir := ".worktrees", containerfile := "Containerfile.dev" }

/-- The empty store. -/
def emptyStore : StateStore := ⟨⟨[]⟩, ⟨[]⟩⟩

/-- True when the trace holds a build call with the given tag. -/
def buildsTag (tag : String) (tr : List Call) : Bool :=
  tr.any fun c => match c with
    | .build _ _ t => t == tag
    | _ => false

/-- True when every build call of the trace carries the given tag. -/
def onlyBuildTag (tag : String) (tr : List Call) : Bool :=
  tr.all fun c => match c with
    | .build _ _ t => t == tag
    | _ => true

/-- A store already holding the record demo-feature-auth. -/
def storeWithFeatureAuth : StateStore :=
  ⟨⟨[mkEnv "demo-feature-auth"]⟩, ⟨[mkEnv "demo-feature-auth"]⟩⟩

/-- Outcomes of the external calls CleanupEnvironment makes, one field per
call site.  `removeImageOk` is carried although the code discards that call's
result (manager.go 366-371); `saveStateOk` is the outcome of the state file
write inside RemoveEnvironment. -/
structure DeleteOracle where
  stopOk : Bool
  removeContainerOk : Bool
  removeImageOk : Bool
  removeVolumeOk : Bool
  removeWorktreeOk : Bool
  saveStateOk : Bool
  deriving Repr, DecidableEq

/-- The record CleanupEnvironment works on (manager.go 339-343): the stored
one, or a bare record carrying only the name when none is stored. -/
def deleteTarget (st : StateStore) (envName : String) : Environment :=
  match GetEnvironment st.mem envName with
  | some e => e
  | none =>
    { name := envName, branch := "", worktreePath := "", containerID := "",
      containerName := "", volumeName := "", created := 0, status := "" }

/-- The container teardown calls of CleanupEnvironment (manager.go 347-364):
by instance id when one is recorded, else by container name. -/
def deleteContainerCalls (env : Environment) : List Call :=
  if !(env.containerID == "") then
    [Call.stopContainer env.containerID, Call.removeContainer env.containerID]
  else if !(env.containerName == "") then
    [Call.stopContainer env.containerName, Call.removeContainer env.containerName]
  else []

/-- The collected container teardown failures (manager.go 347-364): only the
by-id path reports errors; the by-name path ignores them. -/
def deleteContainerErrors (o : DeleteOracle) (env : Environment) : List String :=
  if !(env.containerID == "") then
    (if o.stopOk then [] else ["failed to stop container"]) ++
      (if o.removeContainerOk then [] else ["failed to remove container"])
  else []

/-- The full teardown call sequence of CleanupEnvironment (manager.go 338-397):
container stop and removal, image removal, volume removal when a volume is
recorded, worktree removal when a path is recorded, state-record removal —
issued unconditionally, regardless of the outcomes of earlier steps. -/
def deleteTraceOf (envName : String) (st : StateStore) : List Call :=
  deleteContainerCalls (deleteTarget st envName) ++
  [Call.removeImage (imageTagOf envName)] ++
  (if !((deleteTarget st envName).volumeName == "") then
    [Call.removeVolume (deleteTarget st envName).volumeName] else []) ++
  (if !((deleteTarget st envName).worktreePath == "") then
    [Call.removeWorktree (deleteTarget st envName).worktreePath] else []) ++
  [Call.removeStateRecord envName]

/-- The failures CleanupEnvironment collects (manager.go 345-390), in step
order: container errors, volume, worktree, state-record removal.  The
image-removal outcome is never collected. -/
def deleteErrorsOf (o : DeleteOracle) (envName : String) (st : StateStore) :
    List String :=
  deleteContainerErrors o (deleteTarget st envName) ++
  (if !((deleteTarget st envName).volumeName == "") && !o.removeVolumeOk then
    ["failed to remove volume"] else []) ++
  (if !((deleteTarget st envName).worktreePath == "") && !o.removeWorktreeOk then
    ["failed to remove worktree"] else []) ++
  (if (RemoveEnvironment st envName o.saveStateOk).1.isErr then
    ["failed to remove from state"] else [])

/-- CleanupEnvironment (manager.go 338-397): attempts every teardown step even
when earlier ones fail, collects the step failures, and returns them as one
aggregate error when any occurred. -/
def CleanupEnvironment (o : DeleteOracle) (envName : String) (st : StateStore) :
    Res (List String) Unit × List Call × StateStore :=
  (if deleteErrorsOf o envName st == [] then .ok ()
   else .err (deleteErrorsOf o envName st),
   deleteTraceOf envName st,
   (RemoveEnvironment st envName o.saveStateOk).2)

/-- DeleteEnvironment (manager.go 327-335): a missing record is a not-found
error with no destructive action; otherwise CleanupEnvironment runs. -/
def DeleteEnvironment (o : DeleteOracle) (envName : String) (st : StateStore) :
    Res (List String) Unit × List Call × StateStore :=
  match GetEnvironment st.mem envName with
  | none => (.err ["environment not found"], [], st)
  | some _ => CleanupEnvironment o envName st

/-- The per-entry status re-derivation of ListEnvironments (manager.go
313-322): an entry with a recorded instance id becomes running exactly when
its probe succeeds and reports running, and stopped otherwise; an entry
without an instance id is left as stored. -/
def updateEnvStatus (probe : String → Res Unit Bool) (e : Environment) :
    Environment :=
  if !(e.containerID == "") then
    match probe e.containerID with
    | .ok true => { e with status := "running" }
    | _ => { e with status := "stopped" }
  else e

/-- ListEnvironments (manager.go 308-325): re-derives each entry's status via
the live status probe.  The Go loop writes through the shared slice, so the
in-memory state receives the updated statuses; the disk document is not
rewritten (no SaveState call). -/
def ListEnvironments (probe : String → Res Unit Bool) (st : StateStore) :
    List Environment × StateStore :=
  (st.mem.environments.map (updateEnvStatus probe),
   ⟨⟨st.mem.environments.map (updateEnvStatus probe)⟩, st.disk⟩)

/-- An environment record with no recorded instance id. -/
def envNoContainer : Environment :=
  { name := "x", branch := "b", worktreePath := "w", containerID := "",
    containerName := "cc-buddy-x", volumeName := "v", created := 0,
    status := "creating" }

/-- A delete oracle on which every teardown call succeeds. -/
def deleteAllOk : DeleteOracle :=
  { stopOk := true, removeContainerOk := true, removeImageOk := true,
    removeVolumeOk := true, removeWorktreeOk := true, saveStateOk := true }

/-- One observation of WaitForCompletion's polling loop (part_002 207-226):
either the context deadline is seen (ctxDone), or the ticker fires and the
live-set size is read under the lock. -/
inductive PollEvent where
  | ctxDone
  | tick (liveCount : Nat)
  deriving Repr, DecidableEq

/-- WaitForCompletion (part_002 207-226) over an observation schedule: the
context deadline returns the context's error (the timeout condition), a tick
reading a live-set size of zero returns success, any other tick keeps
polling; `none` means the schedule ended with the loop still polling.  The
100ms ticker cadence and the 30-second deadline are abstracted into the order
of observations — ctxDone stands for the deadline having elapsed. -/
def WaitForCompletion : List PollEvent → Option (Res Unit Unit)
  | [] => none
  | .ctxDone :: _ => some (.err ())
  | .tick n :: rest => if n == 0 then some (.ok ()) else WaitForCompletion rest

/-- Operation (part_002 41-53): the fields drain and cancellation reasoning
needs; the context cancellation handle is modelled by the cancelled flag. -/
structure Operation where
  id : String
  environment : String
  cancelled : Bool
  status : String
  deriving Repr, DecidableEq

/-- CancelAll (part_002 186-194): invokes every live operation's cancellation
handle; it removes nothing from the live set and does not block. -/
def CancelAll (ops : List Operation) : List Operation :=
  ops.map (fun op => { op with cancelled := true })

/-- An observation on which the polling loop returns: the deadline, or a read
of a zero live-set size. -/
def isDecisive : PollEvent → Bool
  | .ctxDone => true
  | .tick n => n == 0

theorem replaceSlashes_eq_map (l : List Char) :
    replaceSlashes l = l.map (fun c => if c = '/' then '-' else c) := by
  induction l with
  | nil => rfl
  | cons c rest ih => simp [replaceSlashes, ih]

theorem removeFirstEnv_sublist {l : List Environment} {n : String}
    {l2 : List Environment} (h : removeFirstEnv l n = some l2) : l2.Sublist l := by
  induction l generalizing l2 with
  | nil => simp [removeFirstEnv] at h
  | cons e rest ih =>
    by_cases he : (e.name == n) = true
    · simp [removeFirstEnv, he] at h
      subst h
      exact List.sublist_cons_self e rest
    · simp [removeFirstEnv, he] at h
      obtain ⟨l3, h3, rfl⟩ := h
      exact List.Sublist.cons₂ e (ih h3)

theorem updateFirstEnv_names {l : List Environment} {n : String}
    {f : Environment → Environment} (hf : ∀ e, (f e).name = e.name)
    {l2 : List Environment} (h : updateFirstEnv l n f = some l2) :
    l2.map (fun e => e.name) = l.map (fun e => e.name) := by
  induction l generalizing l2 with
  | nil => simp [updateFirstEnv] at h
  | cons e rest ih =>
    by_cases he : (e.name == n) = true
    · simp [updateFirstEnv, he] at h
      subst h
      simp [hf]
    · simp [updateFirstEnv, he] at h
      obtain ⟨l3, h3, rfl⟩ := h
      simp [ih h3]

/-- C5 (counterexample): starting from a state whose names are unique,
the store mutation `UpdateEnvironment` with an updater that renames the
record to an existing name yields a state whose names are no longer unique —
UpdateEnvironment performs no uniqueness check on the updated record. -/
theorem c5_names_unique_counterexample :
    namesUnique ⟨[mkEnv "a", mkEnv "b"]⟩ ∧
    ¬ namesUnique (UpdateEnvironment ⟨⟨[mkEnv "a", mkEnv "b"]⟩, ⟨[mkEnv "a", mkEnv "b"]⟩⟩
        "a" (fun e => { e with name := "b" }) true).2.mem := by
  constructor
  · decide
  · decide

/-- C5 (amended): starting from any store whose in-memory names are unique,
AddEnvironment and RemoveEnvironment always yield a state with unique names,
and UpdateEnvironment does so whenever the updater preserves the record's
name (as every in-repository caller does). -/
theorem c5_names_unique_amended (st : StateStore) (env : Environment)
    (name : String) (f : Environment → Environment) (b1 b2 b3 : Bool)
    (hmem : namesUnique st.mem) (hf : ∀ e, (f e).name = e.name) :
    namesUnique (AddEnvironment st env b1).2.mem ∧
    namesUnique (RemoveEnvironment st name b2).2.mem ∧
    namesUnique (UpdateEnvironment st name f b3).2.mem := by
  refine ⟨?_, ?_, ?_⟩
  · unfold AddEnvironment
    by_cases h : st.mem.environments.any (fun e => e.name == env.name) = true
    · simp only [if_pos h]
      exact hmem
    · have hne : ∀ x ∈ st.mem.environments, ¬ x.name = env.name := by
        intro x hx hxe
        exact h (List.any_eq_true.mpr ⟨x, hx, by simp [hxe]⟩)
      rw [if_neg h]
      unfold namesUnique at hmem ⊢
      have hnodup : (List.map (fun e => e.name)
          (st.mem.environments ++ [env])).Nodup := by
        simpa [List.nodup_append] using ⟨hmem, hne⟩
      cases b1 <;> exact hnodup
  · unfold RemoveEnvironment
    cases h : removeFirstEnv st.mem.environments name with
    | none => exact hmem
    | some l =>
      have hsub : (l.map (fun e => e.name)).Sublist
          (st.mem.environments.map (fun e => e.name)) :=
        (removeFirstEnv_sublist h).map (fun e => e.name)
      have hnodup : (List.map (fun e => e.name) l).Nodup := hmem.sublist hsub
      cases b2 <;> exact hnodup
  · unfold UpdateEnvironment
    cases h : updateFirstEnv st.mem.environments name f with
    | none => exact hmem
    | some l =>
      have hnodup : (List.map (fun e => e.name) l).Nodup := by
        rw [updateFirstEnv_names hf h]
        exact hmem
      cases b3 <;> exact hnodup

/-- C5 (amended, witness): the amended preservation applied at a concrete
store, record and name-preserving updater. -/
theorem c5_names_unique_amended_witness :
    namesUnique (AddEnvironment ⟨⟨[mkEnv "a"]⟩, ⟨[mkEnv "a"]⟩⟩ (mkEnv "b") true).2.mem ∧
    namesUnique (RemoveEnvironment ⟨⟨[mkEnv "a"]⟩, ⟨[mkEnv "a"]⟩⟩ "a" true).2.mem ∧
    namesUnique (UpdateEnvironment ⟨⟨[mkEnv "a"]⟩, ⟨[mkEnv "a"]⟩⟩ "a"
        (fun e => { e with status := "stopped" }) true).2.mem :=
  c5_names_unique_amended ⟨⟨[mkEnv "a"]⟩, ⟨[mkEnv "a"]⟩⟩ (mkEnv "b") "a"
    (fun e => { e with status := "stopped" }) true true true
    (by decide) (fun e => rfl)

theorem any_name_eq_isSome_get (s : State) (n : String) :
    s.environments.any (fun e => e.name == n) = (GetEnvironment s n).isSome := by
  unfold GetEnvironment
  induction s.environments with
  | nil => rfl
  | cons e rest ih =>
    by_cases he : (e.name == n) = true <;> simp [List.find?, he, ih]

theorem cleanupRun_store_of_not_in_state (o : Oracle) (cs : CleanupState)
    (env : Environment) (st : StateStore) (h : cs.environmentInState = false) :
    (cleanupRun o cs env st).2 = st := by
  unfold cleanupRun
  simp [h]

theorem AddEnvironment_err_disk (st : StateStore) (env : Environment) (b : Bool)
    (h : (AddEnvironment st env b).1.isErr = true) :
    (AddEnvironment st env b).2.disk = st.disk := by
  unfold AddEnvironment at h ⊢
  by_cases hd : st.mem.environments.any (fun e => e.name == env.name) = true
  · rw [if_pos hd]
  · rw [if_neg hd] at h ⊢
    cases b
    · rfl
    · simp [Res.isErr] at h

theorem ccBuddy_prefixed_ne_empty (s t : String) :
    (("cc-buddy-" ++ s ++ t) == "") = false := by
  rw [beq_eq_false_iff_ne]
  intro h
  have hl := congrArg String.length h
  rw [String.length_append, String.length_append] at hl
  have h9 : ("cc-buddy-" : String).length = 9 := rfl
  have h0 : ("" : String).length = 0 := rfl
  rw [h9, h0] at hl
  omega

theorem createStep7_err_disk (o : Oracle) (env1 : Environment) (fwd : List Call)
    (cs : CleanupState) (st : StateStore) (h : cs.environmentInState = false) :
    (createStep7 o env1 fwd cs st).result.isErr = true →
    (createStep7 o env1 fwd cs st).store.disk = st.disk := by
  unfold createStep7
  split
  · rename_i e heq
    intro _
    show (cleanupRun o cs env1 (AddEnvironment st env1 o.saveStateOk).2).2.disk = st.disk
    rw [cleanupRun_store_of_not_in_state o cs env1 _ h]
    exact AddEnvironment_err_disk st env1 o.saveStateOk (by rw [heq]; rfl)
  · intro herr
    simp [Res.isErr] at herr

theorem createStep6_err_disk (o : Oracle) (env0 : Environment) (imageTag : String)
    (fwd : List Call) (cs : CleanupState) (st : StateStore)
    (h : cs.environmentInState = false) :
    (createStep6 o env0 imageTag fwd cs st).result.isErr = true →
    (createStep6 o env0 imageTag fwd cs st).store.disk = st.disk := by
  unfold createStep6
  split
  · intro _
    show (cleanupRun o cs env0 st).2.disk = st.disk
    rw [cleanupRun_store_of_not_in_state o cs env0 st h]
  · exact createStep7_err_disk _ _ _ _ _ (by simpa using h)

theorem createStep5_err_disk (o : Oracle) (env0 : Environment) (imageTag : String)
    (fwd : List Call) (cs : CleanupState) (st : StateStore)
    (h : cs.environmentInState = false) :
    (createStep5 o env0 imageTag fwd cs st).result.isErr = true →
    (createStep5 o env0 imageTag fwd cs st).store.disk = st.disk := by
  unfold createStep5
  split
  · intro _
    show (cleanupRun o cs env0 st).2.disk = st.disk
    rw [cleanupRun_store_of_not_in_state o cs env0 st h]
  · exact createStep6_err_disk _ _ _ _ _ _ (by simpa using h)

theorem createStep4_err_disk (o : Oracle) (env0 : Environment)
    (containerfile : String) (fwd : List Call) (cs : CleanupState)
    (st : StateStore) (h : cs.environmentInState = false) :
    (createStep4 o env0 containerfile fwd cs st).result.isErr = true →
    (createStep4 o env0 containerfile fwd cs st).store.disk = st.disk := by
  unfold createStep4
  split
  · intro _
    show (cleanupRun o cs env0 st).2.disk = st.disk
    rw [cleanupRun_store_of_not_in_state o cs env0 st h]
  · exact createStep5_err_disk _ _ _ _ _ _ (by simpa using h)

theorem createStep3_err_disk (o : Oracle) (env0 : Environment)
    (containerfile : String) (fwd : List Call) (cs : CleanupState)
    (st : StateStore) (h : cs.environmentInState = false) :
    (createStep3 o env0 containerfile fwd cs st).result.isErr = true →
    (createStep3 o env0 containerfile fwd cs st).store.disk = st.disk := by
  unfold createStep3
  split
  · intro _
    show (cleanupRun o cs env0 st).2.disk = st.disk
    rw [cleanupRun_store_of_not_in_state o cs env0 st h]
  · exact createStep4_err_disk _ _ _ _ _ _ h

theorem createStep2_err_disk (o : Oracle) (opts : CreateEnvironmentOptions)
    (env0 : Environment) (containerfile : String) (fwd : List Call)
    (cs : CleanupState) (st : StateStore) (h : cs.environmentInState = false) :
    (createStep2 o opts env0 containerfile fwd cs st).result.isErr = true →
    (createStep2 o opts env0 containerfile fwd cs st).store.disk = st.disk := by
  unfold createStep2
  split
  · intro _
    show (cleanupRun o cs env0 st).2.disk = st.disk
    rw [cleanupRun_store_of_not_in_state o cs env0 st h]
  · exact createStep3_err_disk _ _ _ _ _ _ (by simpa using h)

theorem CreateEnvironment_err_disk (o : Oracle) (opts : CreateEnvironmentOptions)
    (repoName : String) (cfg : Config) (now : Nat) (st : StateStore) :
    (CreateEnvironment o opts repoName cfg now st).result.isErr = true →
    (CreateEnvironment o opts repoName cfg now st).store.disk = st.disk := by
  unfold CreateEnvironment
  repeat' split
  all_goals
    first
    | (intro _; rfl)
    | exact createStep2_err_disk _ _ _ _ _ _ _ rfl

theorem createStep7_err_trace (o : Oracle) (opts : CreateEnvironmentOptions)
    (repoName : String) (cfg : Config) (now : Nat) (st : StateStore)
    (fwd : List Call) (cid : String)
    (hv : validationPassed st (envNameOf repoName opts) = true)
    (hbs : branchStepOk o opts = true)
    (hw : o.createWorktreeOk = true)
    (hcf : o.containerfileExists = true)
    (hbu : o.buildOk = true)
    (hvo : o.createVolumeOk = true)
    (hr : o.runRes = .ok cid)
    (hcid : (cid == "") = false)
    (herr : (createStep7 o
        { env0Of opts repoName cfg now with containerID := cid, status := "running" }
        fwd (flags6 o opts (envNameOf repoName opts)) st).result.isErr = true) :
    (createStep7 o
        { env0Of opts repoName cfg now with containerID := cid, status := "running" }
        fwd (flags6 o opts (envNameOf repoName opts)) st).trace =
      fwd ++ specCompensation o opts repoName cfg st := by
  have hdup : st.mem.environments.any (fun e =>
      e.name == envNameOf repoName opts) = false := by
    rw [any_name_eq_isSome_get]
    simpa [validationPassed] using hv
  cases hsv : o.saveStateOk with
  | true =>
    unfold createStep7 AddEnvironment at herr
    simp [env0Of, hdup, hsv, Res.isErr] at herr
  | false =>
    unfold createStep7 AddEnvironment
    simp [env0Of, hdup, hsv, createFail, cleanupRun, flags6, specCompensation,
      step1Completed, step2Completed, step3Completed, step4Completed,
      step5Completed, step6Completed, step7Completed, cidOf, Res.isOk,
      hv, hbs, hw, hcf, hbu, hvo, hr, hcid, imageTagOf,
      ccBuddy_prefixed_ne_empty]

theorem createStep6_err_trace (o : Oracle) (opts : CreateEnvironmentOptions)
    (repoName : String) (cfg : Config) (now : Nat) (st : StateStore)
    (fwd : List Call)
    (hv : validationPassed st (envNameOf repoName opts) = true)
    (hbs : branchStepOk o opts = true)
    (hw : o.createWorktreeOk = true)
    (hcf : o.containerfileExists = true)
    (hbu : o.buildOk = true)
    (hvo : o.createVolumeOk = true)
    (hrun : o.runRes ≠ .ok "")
    (herr : (createStep6 o (env0Of opts repoName cfg now)
        (imageTagOf (envNameOf repoName opts)) fwd
        (flags5 o opts (envNameOf repoName opts)) st).result.isErr = true) :
    (createStep6 o (env0Of opts repoName cfg now)
        (imageTagOf (envNameOf repoName opts)) fwd
        (flags5 o opts (envNameOf repoName opts)) st).trace =
      fwd ++
      (if step5Completed o opts st (envNameOf repoName opts) then
        [Call.runContainer ("cc-buddy-" ++ envNameOf repoName opts)
          (imageTagOf (envNameOf repoName opts))] else []) ++
      specCompensation o opts repoName cfg st := by
  cases hr : o.runRes with
  | err e =>
    unfold createStep6
    simp [hr, createFail, cleanupRun, flags5, specCompensation, step1Completed,
      step2Completed, step3Completed, step4Completed, step5Completed,
      step6Completed, step7Completed, cidOf, Res.isOk, env0Of,
      hv, hbs, hw, hcf, hbu, hvo, imageTagOf, ccBuddy_prefixed_ne_empty]
  | ok cid =>
    have hcid : (cid == "") = false := by
      rw [beq_eq_false_iff_ne]
      intro hh
      exact hrun (hh ▸ hr)
    have h5 : step5Completed o opts st (envNameOf repoName opts) = true := by
      simp [step5Completed, step4Completed, step3Completed, step2Completed,
        step1Completed, hv, hbs, hw, hcf, hbu, hvo]
    unfold createStep6 at herr ⊢
    rw [hr] at herr ⊢
    rw [h5]
    simp only [if_true]
    exact createStep7_err_trace o opts repoName cfg now st _ cid
      hv hbs hw hcf hbu hvo hr hcid herr

theorem createStep5_err_trace (o : Oracle) (opts : CreateEnvironmentOptions)
    (repoName : String) (cfg : Config) (now : Nat) (st : StateStore)
    (fwd : List Call)
    (hv : validationPassed st (envNameOf repoName opts) = true)
    (hbs : branchStepOk o opts = true)
    (hw : o.createWorktreeOk = true)
    (hcf : o.containerfileExists = true)
    (hbu : o.buildOk = true)
    (hrun : o.runRes ≠ .ok "")
    (herr : (createStep5 o (env0Of opts repoName cfg now)
        (imageTagOf (envNameOf repoName opts)) fwd
        (flags4 o opts (envNameOf repoName opts)) st).result.isErr = true) :
    (createStep5 o (env0Of opts repoName cfg now)
        (imageTagOf (envNameOf repoName opts)) fwd
        (flags4 o opts (envNameOf repoName opts)) st).trace =
      fwd ++
      (if step4Completed o opts st (envNameOf repoName opts) then
        [Call.createVolume ("cc-buddy-" ++ envNameOf repoName opts ++ "-data")]
      else []) ++
      (if step5Completed o opts st (envNameOf repoName opts) then
        [Call.runContainer ("cc-buddy-" ++ envNameOf repoName opts)
          (imageTagOf (envNameOf repoName opts))] else []) ++
      specCompensation o opts repoName cfg st := by
  have h4 : step4Completed o opts st (envNameOf repoName opts) = true := by
    simp [step4Completed, step3Completed, step2Completed, step1Completed,
      hv, hbs, hw, hcf, hbu]
  cases hvo : o.createVolumeOk with
  | false =>
    unfold createStep5
    simp [hvo, createFail, cleanupRun, flags4, specCompensation, step1Completed,
      step2Completed, step3Completed, step4Completed, step5Completed,
      step6Completed, step7Completed, cidOf, Res.isOk, env0Of,
      hv, hbs, hw, hcf, hbu, imageTagOf, ccBuddy_prefixed_ne_empty]
  | true =>
    unfold createStep5 at herr ⊢
    rw [hvo] at herr ⊢
    rw [h4]
    simp only [if_true, Bool.not_true, Bool.false_eq_true, if_false]
    exact createStep6_err_trace o opts repoName cfg now st _
      hv hbs hw hcf hbu hvo hrun (by simpa using herr)

theorem createStep4_err_trace (o : Oracle) (opts : CreateEnvironmentOptions)
    (repoName : String) (cfg : Config) (now : Nat) (st : StateStore)
    (fwd : List Call)
    (hv : validationPassed st (envNameOf repoName opts) = true)
    (hbs : branchStepOk o opts = true)
    (hw : o.createWorktreeOk = true)
    (hcf : o.containerfileExists = true)
    (hrun : o.runRes ≠ .ok "")
    (herr : (createStep4 o (env0Of opts repoName cfg now)
        (containerfileOf opts cfg) fwd
        (flags2 o opts) st).result.isErr = true) :
    (createStep4 o (env0Of opts repoName cfg now) (containerfileOf opts cfg)
        fwd (flags2 o opts) st).trace =
      fwd ++
      (if step3Completed o opts st (envNameOf repoName opts) then
        [Call.build (worktreeDirOf opts cfg ++ "/" ++ envNameOf repoName opts)
          (containerfileOf opts cfg) (imageTagOf (envNameOf repoName opts))]
      else []) ++
      (if step4Completed o opts st (envNameOf repoName opts) then
        [Call.createVolume ("cc-buddy-" ++ envNameOf repoName opts ++ "-data")]
      else []) ++
      (if step5Completed o opts st (envNameOf repoName opts) then
        [Call.runContainer ("cc-buddy-" ++ envNameOf repoName opts)
          (imageTagOf (envNameOf repoName opts))] else []) ++
      specCompensation o opts repoName cfg st := by
  have h3 : step3Completed o opts st (envNameOf repoName opts) = true := by
    simp [step3Completed, step2Completed, step1Completed, hv, hbs, hw, hcf]
  cases hbu : o.buildOk with
  | false =>
    unfold createStep4
    simp [hbu, createFail, cleanupRun, flags2, specCompensation, step1Completed,
      step2Completed, step3Completed, step4Completed, step5Completed,
      step6Completed, step7Completed, cidOf, Res.isOk, env0Of,
      hv, hbs, hw, hcf, imageTagOf, ccBuddy_prefixed_ne_empty]
  | true =>
    unfold createStep4 at herr ⊢
    rw [hbu] at herr ⊢
    rw [h3]
    simp only [if_true, Bool.not_true, Bool.false_eq_true, if_false]
    exact createStep5_err_trace o opts repoName cfg now st _
      hv hbs hw hcf hbu hrun (by simpa [env0Of] using herr)

theorem createStep3_err_trace (o : Oracle) (opts : CreateEnvironmentOptions)
    (repoName : String) (cfg : Config) (now : Nat) (st : StateStore)
    (fwd : List Call)
    (hv : validationPassed st (envNameOf repoName opts) = true)
    (hbs : branchStepOk o opts = true)
    (hw : o.createWorktreeOk = true)
    (hrun : o.runRes ≠ .ok "")
    (herr : (createStep3 o (env0Of opts repoName cfg now)
        (containerfileOf opts cfg) fwd
        (flags2 o opts) st).result.isErr = true) :
    (createStep3 o (env0Of opts repoName cfg now) (containerfileOf opts cfg)
        fwd (flags2 o opts) st).trace =
      fwd ++
      (if step2Completed o opts st (envNameOf repoName opts) then
        [Call.statContainerfile (worktreeDirOf opts cfg ++ "/" ++
          envNameOf repoName opts ++ "/" ++ containerfileOf opts cfg)]
      else []) ++
      (if step3Completed o opts st (envNameOf repoName opts) then
        [Call.build (worktreeDirOf opts cfg ++ "/" ++ envNameOf repoName opts)
          (containerfileOf opts cfg) (imageTagOf (envNameOf repoName opts))]
      else []) ++
      (if step4Completed o opts st (envNameOf repoName opts) then
        [Call.createVolume ("cc-buddy-" ++ envNameOf repoName opts ++ "-data")]
      else []) ++
      (if step5Completed o opts st (envNameOf repoName opts) then
        [Call.runContainer ("cc-buddy-" ++ envNameOf repoName opts)
          (imageTagOf (envNameOf repoName opts))] else []) ++
      specCompensation o opts repoName cfg st := by
  have h2 : step2Completed o opts st (envNameOf repoName opts) = true := by
    simp [step2Completed, step1Completed, hv, hbs, hw]
  cases hcf : o.containerfileExists with
  | false =>
    unfold createStep3
    simp [hcf, createFail, cleanupRun, flags2, specCompensation, step1Completed,
      step2Completed, step3Completed, step4Completed, step5Completed,
      step6Completed, step7Completed, cidOf, Res.isOk, env0Of,
      hv, hbs, hw, imageTagOf, ccBuddy_prefixed_ne_empty]
  | true =>
    unfold createStep3 at herr ⊢
    rw [hcf] at herr ⊢
    rw [h2]
    simp only [if_true, Bool.not_true, Bool.false_eq_true, if_false]
    exact createStep4_err_trace o opts repoName cfg now st _
      hv hbs hw hcf hrun (by simpa [env0Of] using herr)

theorem createStep2_err_trace (o : Oracle) (opts : CreateEnvironmentOptions)
    (repoName : String) (cfg : Config) (now : Nat) (st : StateStore)
    (fwd : List Call)
    (hv : validationPassed st (envNameOf repoName opts) = true)
    (hbs : branchStepOk o opts = true)
    (hrun : o.runRes ≠ .ok "")
    (herr : (createStep2 o opts (env0Of opts repoName cfg now)
        (containerfileOf opts cfg) fwd
        (flags1 o opts) st).result.isErr = true) :
    (createStep2 o opts (env0Of opts repoName cfg now) (containerfileOf opts cfg)
        fwd (flags1 o opts) st).trace =
      fwd ++
      (if step1Completed o opts st (envNameOf repoName opts) then
        [Call.createWorktree (worktreeDirOf opts cfg ++ "/" ++
          envNameOf repoName opts) opts.branchName (remoteRefOf opts)]
      else []) ++
      (if step2Completed o opts st (envNameOf repoName opts) then
        [Call.statContainerfile (worktreeDirOf opts cfg ++ "/" ++
          envNameOf repoName opts ++ "/" ++ containerfileOf opts cfg)]
      else []) ++
      (if step3Completed o opts st (envNameOf repoName opts) then
        [Call.build (worktreeDirOf opts cfg ++ "/" ++ envNameOf repoName opts)
          (containerfileOf opts cfg) (imageTagOf (envNameOf repoName opts))]
      else []) ++
      (if step4Completed o opts st (envNameOf repoName opts) then
        [Call.createVolume ("cc-buddy-" ++ envNameOf repoName opts ++ "-data")]
      else []) ++
      (if step5Completed o opts st (envNameOf repoName opts) then
        [Call.runContainer ("cc-buddy-" ++ envNameOf repoName opts)
          (imageTagOf (envNameOf repoName opts))] else []) ++
      specCompensation o opts repoName cfg st := by
  have h1 : step1Completed o opts st (envNameOf repoName opts) = true := by
    simp [step1Completed, hv, hbs]
  cases hw : o.createWorktreeOk with
  | false =>
    unfold createStep2
    simp [hw, createFail, cleanupRun, flags1, specCompensation, step1Completed,
      step2Completed, step3Completed, step4Completed, step5Completed,
      step6Completed, step7Completed, cidOf, Res.isOk, env0Of,
      hv, hbs, imageTagOf, ccBuddy_prefixed_ne_empty]
  | true =>
    unfold createStep2 at herr ⊢
    rw [hw] at herr ⊢
    rw [h1]
    simp only [if_true, Bool.not_true, Bool.false_eq_true, if_false]
    exact createStep3_err_trace o opts repoName cfg now st _
      hv hbs hw hrun (by simpa [env0Of] using herr)

/-- C1: atomic visibility of creation — whenever CreateEnvironment returns an
error, the derived environment name does not appear in the persisted (disk)
State afterwards; the record is only written as the final step, after every
underlying resource was created. -/
theorem c1_create_atomic_visibility (o : Oracle) (opts : CreateEnvironmentOptions)
    (repoName : String) (cfg : Config) (now : Nat) (st : StateStore)
    (hn : st.disk.environments.any
      (fun e => e.name == envNameOf repoName opts) = false)
    (herr : (CreateEnvironment o opts repoName cfg now st).result.isErr = true) :
    (CreateEnvironment o opts repoName cfg now st).store.disk.environments.any
      (fun e => e.name == envNameOf repoName opts) = false := by
  rw [CreateEnvironment_err_disk o opts repoName cfg now st herr]
  exact hn

/-- C1 (witness): a concrete failed creation (the image build fails) leaves a
persisted state in which the derived name does not appear. -/
theorem c1_create_atomic_visibility_witness :
    (CreateEnvironment { oracleAllOk with buildOk := false } optsFeatureAuth
      "demo" cfgDefault 0 emptyStore).store.disk.environments.any
      (fun e => e.name == envNameOf "demo" optsFeatureAuth) = false :=
  c1_create_atomic_visibility { oracleAllOk with buildOk := false }
    optsFeatureAuth "demo" cfgDefault 0 emptyStore (by decide) (by decide)

/-- C2: reverse-order compensation — at every failure point of
CreateEnvironment (assuming a successful instance start reports a nonempty
instance id), the call trace is exactly the spec's forward calls followed by
the spec's compensation sequence: one compensating call per completed step, in
strict reverse order of completion, and no compensation for a step whose flag
was not set. -/
theorem c2_reverse_compensation (o : Oracle) (opts : CreateEnvironmentOptions)
    (repoName : String) (cfg : Config) (now : Nat) (st : StateStore)
    (hrun : o.runRes ≠ .ok "")
    (herr : (CreateEnvironment o opts repoName cfg now st).result.isErr = true) :
    (CreateEnvironment o opts repoName cfg now st).trace =
      specForward o opts repoName cfg st ++
        specCompensation o opts repoName cfg st := by
  by_cases hdup : (GetEnvironment st.mem (envNameOf repoName opts)).isSome = true
  · unfold CreateEnvironment
    rw [if_pos hdup]
    simp [specForward, specCompensation, validationPassed, hdup,
      step1Completed, step2Completed, step3Completed, step4Completed,
      step5Completed, step6Completed, step7Completed]
  · have hds : (GetEnvironment st.mem (envNameOf repoName opts)).isSome = false := by
      simpa using hdup
    have hv : validationPassed st (envNameOf repoName opts) = true := by
      simp [validationPassed, hds]
    cases hrb : opts.isRemoteBranch with
    | true =>
      cases hf : o.fetchRemoteOk with
      | false =>
        simp [CreateEnvironment, hds, hrb, hf, createFail, cleanupRun,
          CleanupState.init, specForward, specCompensation, validationPassed,
          step1Completed, step2Completed, step3Completed, step4Completed,
          step5Completed, step6Completed, step7Completed, branchStepOk,
          branchCreatedByCall, cidOf, Res.isOk]
      | true =>
        cases hrbe : o.remoteBranchExistsRes with
        | err e =>
          simp [CreateEnvironment, hds, hrb, hf, hrbe, createFail, cleanupRun,
            CleanupState.init, specForward, specCompensation, validationPassed,
            step1Completed, step2Completed, step3Completed, step4Completed,
            step5Completed, step6Completed, step7Completed, branchStepOk,
            branchCreatedByCall, cidOf, Res.isOk]
        | ok b =>
          cases b with
          | false =>
            simp [CreateEnvironment, hds, hrb, hf, hrbe, createFail, cleanupRun,
              CleanupState.init, specForward, specCompensation, validationPassed,
              step1Completed, step2Completed, step3Completed, step4Completed,
              step5Completed, step6Completed, step7Completed, branchStepOk,
              branchCreatedByCall, cidOf, Res.isOk]
          | true =>
            have hfl : CleanupState.init = flags1 o opts := by
              simp [CleanupState.init, flags1, branchCreatedByCall, hrb]
            have hbs : branchStepOk o opts = true := by
              simp [branchStepOk, hrb, hf, hrbe]
            simp only [CreateEnvironment, hds, hrb, hf, hrbe, Bool.not_true,
              Bool.false_eq_true, if_false, Bool.not_false, if_true] at herr ⊢
            rw [hfl] at herr ⊢
            rw [createStep2_err_trace o opts repoName cfg now st _ hv hbs hrun herr]
            simp [specForward, validationPassed, hds, hrb, hf, hrbe]
    | false =>
      cases hbe : o.branchExistsRes with
      | err e =>
        simp [CreateEnvironment, hds, hrb, hbe, createFail, cleanupRun,
          CleanupState.init, specForward, specCompensation, validationPassed,
          step1Completed, step2Completed, step3Completed, step4Completed,
          step5Completed, step6Completed, step7Completed, branchStepOk,
          branchCreatedByCall, cidOf, Res.isOk]
      | ok b =>
        cases b with
        | true =>
          have hfl : CleanupState.init = flags1 o opts := by
            simp [CleanupState.init, flags1, branchCreatedByCall, hrb, hbe]
          have hbs : branchStepOk o opts = true := by
            simp [branchStepOk, hrb, hbe]
          simp only [CreateEnvironment, hds, hrb, hbe, Bool.not_true,
            Bool.false_eq_true, if_false, Bool.not_false, if_true] at herr ⊢
          rw [hfl] at herr ⊢
          rw [createStep2_err_trace o opts repoName cfg now st _ hv hbs hrun herr]
          simp [specForward, validationPassed, hds, hrb, hbe]
        | false =>
          cases hcb : o.createBranchOk with
          | false =>
            simp [CreateEnvironment, hds, hrb, hbe, hcb, createFail, cleanupRun,
              CleanupState.init, specForward, specCompensation, validationPassed,
              step1Completed, step2Completed, step3Completed, step4Completed,
              step5Completed, step6Completed, step7Completed, branchStepOk,
              branchCreatedByCall, cidOf, Res.isOk]
          | true =>
            have hfl : ({ CleanupState.init with branchCreated := true } :
                CleanupState) = flags1 o opts := by
              simp [CleanupState.init, flags1, branchCreatedByCall, hrb, hbe, hcb]
            have hbs : branchStepOk o opts = true := by
              simp [branchStepOk, hrb, hbe, hcb]
            simp only [CreateEnvironment, hds, hrb, hbe, hcb, Bool.not_true,
              Bool.false_eq_true, if_false, Bool.not_false, if_true] at herr ⊢
            rw [hfl] at herr ⊢
            rw [createStep2_err_trace o opts repoName cfg now st _ hv hbs hrun herr]
            simp [specForward, validationPassed, hds, hrb, hbe, hcb]

/-- C2 (witness): the compensation equation at a concrete failed run — volume
creation fails after branch creation, worktree and image build succeeded. -/
theorem c2_reverse_compensation_witness :
    (CreateEnvironment { oracleAllOk with createVolumeOk := false }
      optsFeatureAuth "demo" cfgDefault 0 emptyStore).trace =
      specForward { oracleAllOk with createVolumeOk := false } optsFeatureAuth
        "demo" cfgDefault emptyStore ++
      specCompensation { oracleAllOk with createVolumeOk := false }
        optsFeatureAuth "demo" cfgDefault emptyStore :=
  c2_reverse_compensation { oracleAllOk with createVolumeOk := false }
    optsFeatureAuth "demo" cfgDefault 0 emptyStore (by decide) (by decide)

/-- C8 (counterexample): in Scenario A — Create("feature-auth") on a repo named
demo, every step succeeding — the run does build an image, yet no build call
carries the tag demo-feature-auth-tool:latest the claim names. -/
theorem c8_image_tag_counterexample :
    buildsTag "demo-feature-auth-tool:latest"
      (CreateEnvironment oracleAllOk optsFeatureAuth "demo" cfgDefault 0
        emptyStore).trace = false ∧
    buildsTag "cc-buddy-demo-feature-auth:latest"
      (CreateEnvironment oracleAllOk optsFeatureAuth "demo" cfgDefault 0
        emptyStore).trace = true := by
  constructor
  · decide
  · decide

/-- C8 (amended): in Scenario A the image is built and tagged
cc-buddy-demo-feature-auth:latest (the code tags {tool}-{envName}:latest with
tool cc-buddy), and every build call of the run carries that tag. -/
theorem c8_image_tag_scenario_a :
    buildsTag "cc-buddy-demo-feature-auth:latest"
      (CreateEnvironment oracleAllOk optsFeatureAuth "demo" cfgDefault 0
        emptyStore).trace = true ∧
    onlyBuildTag "cc-buddy-demo-feature-auth:latest"
      (CreateEnvironment oracleAllOk optsFeatureAuth "demo" cfgDefault 0
        emptyStore).trace = true := by
  constructor
  · decide
  · decide

/-- C3: Create with a branch whose derived environment name is already present
in the State fails with the duplicate-name validation error, issues zero
adapter calls, and leaves the store untouched. -/
theorem c3_duplicate_name_rejected (o : Oracle) (opts : CreateEnvironmentOptions)
    (repoName : String) (cfg : Config) (now : Nat) (st : StateStore)
    (h : (GetEnvironment st.mem (envNameOf repoName opts)).isSome = true) :
    CreateEnvironment o opts repoName cfg now st =
      ⟨.err ("environment " ++ envNameOf repoName opts ++ " already exists"),
        [], CleanupState.init, st⟩ := by
  unfold CreateEnvironment
  rw [if_pos h]

/-- C3 (witness): the duplicate rejection at a concrete store that already
holds the derived name — the error is returned, the trace is empty, and the
store is unchanged. -/
theorem c3_duplicate_name_rejected_witness :
    CreateEnvironment oracleAllOk optsFeatureAuth "demo" cfgDefault 0
        storeWithFeatureAuth =
      ⟨.err ("environment " ++ envNameOf "demo" optsFeatureAuth ++
        " already exists"), [], CleanupState.init, storeWithFeatureAuth⟩ :=
  c3_duplicate_name_rejected oracleAllOk optsFeatureAuth "demo" cfgDefault 0
    storeWithFeatureAuth (by decide)

theorem removeFirstEnv_isSome_of_mem {l : List Environment} {n : String}
    (h : ∃ x ∈ l, x.name = n) : (removeFirstEnv l n).isSome = true := by
  induction l with
  | nil => simp at h
  | cons e rest ih =>
    by_cases he : (e.name == n) = true
    · simp [removeFirstEnv, he]
    · obtain ⟨x, hx, hxn⟩ := h
      rcases List.mem_cons.mp hx with rfl | hxr
      · exact absurd (by simpa using hxn) (by simpa using he)
      · simp [removeFirstEnv, he]
        exact ih ⟨x, hxr, hxn⟩

theorem removeFirstEnv_name_not_mem {l : List Environment} {n : String}
    (hnd : (l.map (fun e => e.name)).Nodup) {l2 : List Environment}
    (h : removeFirstEnv l n = some l2) :
    ∀ x ∈ l2, ¬ x.name = n := by
  induction l generalizing l2 with
  | nil => simp [removeFirstEnv] at h
  | cons e rest ih =>
    rw [List.map_cons, List.nodup_cons] at hnd
    by_cases he : (e.name == n) = true
    · simp [removeFirstEnv, he] at h
      subst h
      intro x hx hxn
      apply hnd.1
      rw [List.mem_map]
      refine ⟨x, hx, ?_⟩
      rw [hxn]
      exact (by simpa using he : e.name = n).symm
    · simp [removeFirstEnv, he] at h
      obtain ⟨l3, h3, rfl⟩ := h
      intro x hx
      rcases List.mem_cons.mp hx with rfl | hxr
      · simpa using he
      · exact ih hnd.2 h3 x hxr

/-- C4: best-effort-continue deletion — Delete(name) on a missing record is a
not-found error with no call issued and the store untouched; on an existing
record every teardown step is attempted regardless of the outcomes of the
others (the trace does not depend on the oracle), the step failures are
collected and returned as one aggregate error exactly when any occurred, and
the record is removed from the in-memory state even when other steps fail. -/
theorem c4_delete_best_effort (o : DeleteOracle) (envName : String)
    (st : StateStore) (hnd : namesUnique st.mem) :
    (GetEnvironment st.mem envName = none →
      DeleteEnvironment o envName st = (.err ["environment not found"], [], st)) ∧
    (∀ e, GetEnvironment st.mem envName = some e →
      (DeleteEnvironment o envName st).2.1 = deleteTraceOf envName st ∧
      (DeleteEnvironment o envName st).1.isErr =
        !(deleteErrorsOf o envName st == []) ∧
      (∀ l, (DeleteEnvironment o envName st).1 = .err l →
        l = deleteErrorsOf o envName st) ∧
      GetEnvironment (DeleteEnvironment o envName st).2.2.mem envName = none) := by
  constructor
  · intro h
    unfold DeleteEnvironment
    rw [h]
  · intro e he
    unfold DeleteEnvironment
    rw [he]
    refine ⟨rfl, ?_, ?_, ?_⟩
    · unfold CleanupEnvironment
      by_cases hz : (deleteErrorsOf o envName st == []) = true
      · simp [hz, Res.isErr]
      · simp [hz, Res.isErr]
    · intro l hl
      unfold CleanupEnvironment at hl
      by_cases hz : (deleteErrorsOf o envName st == []) = true
      · rw [if_pos hz] at hl
        exact absurd hl (by simp)
      · rw [if_neg hz] at hl
        have := congrArg (fun r => match r with
          | Res.err x => x
          | Res.ok _ => []) hl
        simpa using this.symm
    · show GetEnvironment (RemoveEnvironment st envName o.saveStateOk).2.mem
        envName = none
      unfold RemoveEnvironment
      cases hr : removeFirstEnv st.mem.environments envName with
      | none =>
        have hs : (removeFirstEnv st.mem.environments envName).isSome = true := by
          apply removeFirstEnv_isSome_of_mem
          unfold GetEnvironment at he
          exact ⟨e, List.mem_of_find?_eq_some he,
            by simpa using List.find?_some he⟩
        rw [hr] at hs
        simp at hs
      | some l =>
        have hn := removeFirstEnv_name_not_mem hnd hr
        have hg : GetEnvironment ⟨l⟩ envName = none := by
          unfold GetEnvironment
          rw [List.find?_eq_none]
          intro x hx
          simpa using hn x hx
        cases o.saveStateOk <;> exact hg

/-- C4 (witness): deleting a concrete existing record removes it from the
in-memory state. -/
theorem c4_delete_best_effort_witness :
    GetEnvironment (DeleteEnvironment deleteAllOk "demo-feature-auth"
      storeWithFeatureAuth).2.2.mem "demo-feature-auth" = none :=
  ((c4_delete_best_effort deleteAllOk "demo-feature-auth" storeWithFeatureAuth
      (by decide)).2 (mkEnv "demo-feature-auth") (by decide)).2.2.2

/-- C10: the image-removal outcome is silently dropped during deletion —
CleanupEnvironment's result, trace and final store are invariant under the
remove-image outcome, the removeImage call is nevertheless always issued (and
the following steps always attempted), and deletion can return success
outright while image removal failed. -/
theorem c10_remove_image_failure_dropped (o : DeleteOracle) (envName : String)
    (st : StateStore) :
    CleanupEnvironment { o with removeImageOk := false } envName st =
      CleanupEnvironment { o with removeImageOk := true } envName st ∧
    Call.removeImage (imageTagOf envName) ∈
      (CleanupEnvironment o envName st).2.1 ∧
    (CleanupEnvironment { deleteAllOk with removeImageOk := false }
      "demo-feature-auth" storeWithFeatureAuth).1 = .ok () := by
  refine ⟨rfl, ?_, by decide⟩
  show Call.removeImage (imageTagOf envName) ∈ deleteTraceOf envName st
  unfold deleteTraceOf
  simp

/-- C6 (counterexample): an entry of the State with no recorded instance id is
not re-derived — ListEnvironments issues no probe for it and leaves its stored
status, here creating, which is neither running nor stopped. -/
theorem c6_list_status_counterexample :
    ((ListEnvironments (fun _ => .ok true)
      ⟨⟨[envNoContainer]⟩, ⟨[envNoContainer]⟩⟩).1.map (fun e => e.status)) =
      ["creating"] ∧
    ("creating" : String) ≠ "running" ∧ ("creating" : String) ≠ "stopped" := by
  refine ⟨by decide, by decide, by decide⟩

/-- C6 (amended): listing never rewrites the persisted document, returns the
stored entries mapped through the per-entry re-derivation, and every entry
with a recorded instance id is re-derived to running exactly when its live
probe succeeds and reports running — and to stopped otherwise, including when
the probe fails — with all other fields preserved. -/
theorem c6_list_status_amended (probe : String → Res Unit Bool)
    (st : StateStore) :
    (ListEnvironments probe st).2.disk = st.disk ∧
    (ListEnvironments probe st).1 =
      st.mem.environments.map (updateEnvStatus probe) ∧
    ∀ e : Environment, (e.containerID == "") = false →
      ((updateEnvStatus probe e).status = "running" ∨
        (updateEnvStatus probe e).status = "stopped") ∧
      ((updateEnvStatus probe e).status = "running" ↔
        probe e.containerID = .ok true) ∧
      (updateEnvStatus probe e).name = e.name ∧
      (updateEnvStatus probe e).containerID = e.containerID ∧
      (updateEnvStatus probe e).branch = e.branch := by
  refine ⟨rfl, rfl, ?_⟩
  intro e he
  unfold updateEnvStatus
  rw [he]
  cases hp : probe e.containerID with
  | err u => simp [hp]
  | ok b => cases b <;> simp [hp]

/-- C7: drain correctness of WaitForCompletion — CancelAll cancels every live
operation without removing any (so the live set it leaves has the same size),
and, over any observation schedule of the polling loop, WaitForCompletion
returns success exactly when the first decisive observation is a zero live-set
read, and the timeout condition exactly when the deadline elapses before any
zero read.  Real-time aspects (the 100ms tick, the 30s deadline) are
abstracted into the order of observations. -/
theorem c7_wait_for_completion_drain (sched : List PollEvent)
    (ops : List Operation) :
    ((CancelAll ops).length = ops.length ∧
      ∀ op ∈ CancelAll ops, op.cancelled = true) ∧
    (WaitForCompletion sched = some (.ok ()) ↔
      sched.find? isDecisive = some (.tick 0)) ∧
    (WaitForCompletion sched = some (.err ()) ↔
      sched.find? isDecisive = some .ctxDone) := by
  refine ⟨⟨by simp [CancelAll], ?_⟩, ?_⟩
  · intro op hop
    rw [CancelAll, List.mem_map] at hop
    obtain ⟨x, _, rfl⟩ := hop
    rfl
  · induction sched with
    | nil => simp [WaitForCompletion]
    | cons e rest ih =>
      cases e with
      | ctxDone => simp [WaitForCompletion, List.find?, isDecisive]
      | tick n =>
        by_cases hn : n = 0
        · subst hn
          simp [WaitForCompletion, List.find?, isDecisive]
        · have hb : (n == 0) = false := by simpa using hn
          simp [WaitForCompletion, List.find?, isDecisive, hb]
          exact ih

/-- C9: GenerateEnvironmentName("feature/x") in a repo named demo yields
"demo-feature-x"; in general the result is {repo}-{branch} with every forward
slash of the branch replaced by a hyphen. -/
theorem c9_generate_environment_name :
    GenerateEnvironmentName "demo" "feature/x" = "demo-feature-x" ∧
    ∀ repo branch : String, (GenerateEnvironmentName repo branch).data =
      repo.data ++ '-' :: branch.data.map (fun c => if c = '/' then '-' else c) := by
  constructor
  · rfl
  · intro repo branch
    show (repo ++ "-" ++ (⟨replaceSlashes branch.data⟩ : String)).data = _
    rw [String.data_append, String.data_append, replaceSlashes_eq_map,
      List.append_assoc]
    rfl

end CcBuddy

